import Mathlib

/-!
Shallow embedding of the Evently ingestion and fan-out service
(`services/evently-api/main.py`).  The database (tables `routes`,
`events`, `jobs`) is an explicit state record; the three endpoint
handlers `create_route`, `list_routes` and `create_event` are pure
functions over it.  `json.loads` is an abstract decoder
`String → Option PyVal` (`none` = `JSONDecodeError`); storage faults
are injected through a `fault : Nat → Bool` oracle indexed by the
statement position inside the `create_event` transaction, and the
`conn.transaction()` context manager is embedded as rollback to the
original state whenever the transaction body raises.
-/

/-- A Python/JSON value as handled by the service and the database
driver (event payloads, `destination` and `retry_policy` documents).
Booleans are a separate constructor but are treated as integers where
the source uses `isinstance(v, int)`, since Python `bool` is a
subclass of `int`. -/
inductive PyVal where
  | pyNone : PyVal
  | pyBool : Bool → PyVal
  | pyInt : Int → PyVal
  | pyStr : String → PyVal
  | pyList : List PyVal → PyVal
  | pyDict : List (String × PyVal) → PyVal

/-- A row of the `routes` table.  `created_at` is modelled as a
monotone tick (drawn from the state's fresh counter), so later inserts
carry strictly larger values, matching `now()` with a monotone clock. -/
structure Route where
  id : Nat
  event_type : String
  action_type : String
  destination : PyVal
  retry_policy : PyVal
  enabled : Bool
  created_at : Nat

/-- A row of the `events` table.  `idempotency_key` is `none` for SQL
`NULL` (the column is simply omitted by the key-less INSERT). -/
structure Event where
  id : Nat
  type : String
  payload : PyVal
  idempotency_key : Option String

/-- A row of the `jobs` table, as inserted by the fan-out loop. -/
structure Job where
  id : Nat
  event_id : Nat
  route_id : Nat
  action_type : String
  payload : PyVal
  status : String
  attempt : Nat
  max_attempts : Int

/-- Modelled from the spec: ids are "unique, system-generated"
(the schema with its generated id columns is not part of the
repository sources), so fresh ids are drawn from a single monotone
counter `nextId`, which also serves as the monotone creation clock. -/
structure DB where
  routes : List Route
  events : List Event
  jobs : List Job
  nextId : Nat

/-- The error taxonomy of the HTTP surface: pydantic request
validation (422), the MVP action-type guardrail (400), and
storage/driver faults surfaced as opaque failures. -/
inductive Err where
  | validationError : Err
  | unsupportedAction : Err
  | persistenceError : Err
deriving DecidableEq

/-- The `Destination` request model: `url` (min_length 1),
`timeout_ms` optional with default 3000 and `ge=1`, optional headers
and secret. -/
structure Destination where
  url : String
  timeout_ms : Option Int := some 3000
  headers : Option (List (String × String)) := none
  secret : Option String := none

/-- The `RetryPolicy` request model: `max_attempts` (`ge=1`), optional
`backoff`. -/
structure RetryPolicy where
  max_attempts : Int
  backoff : Option String := none

/-- The `CreateRouteRequest` model.  `enabled` is `Optional[bool]`
with default `True`; an explicit JSON `null` arrives as `none`. -/
structure CreateRouteRequest where
  event_type : String
  action_type : String
  destination : Destination
  retry_policy : RetryPolicy
  enabled : Option Bool := some true

/-- The `CreateEventRequest` model: non-empty `type`, a payload dict
with at least one entry (`min_length=1`), optional idempotency key. -/
structure CreateEventRequest where
  type : String
  payload : List (String × PyVal)
  idempotency_key : Option String := none

/-- The `CreateEventResponse` model: the event id and the created job
ids, in fan-out order. -/
structure CreateEventResponse where
  event_id : Nat
  job_ids : List Nat
deriving DecidableEq

/-- The `RouteResponse` model returned by `GET /routes`. -/
structure RouteResponse where
  id : Nat
  event_type : String
  action_type : String
  destination : PyVal
  retry_policy : PyVal
  enabled : Bool
  created_at : Nat

/-- `model_dump()` of a `Destination`, as serialized by `json.dumps`
into the `destination` jsonb column. -/
def Destination.dump (d : Destination) : PyVal :=
  .pyDict [("url", .pyStr d.url),
    ("timeout_ms", match d.timeout_ms with | some t => .pyInt t | none => .pyNone),
    ("headers", match d.headers with
      | some hs => .pyDict (hs.map (fun kv => (kv.1, .pyStr kv.2)))
      | none => .pyNone),
    ("secret", match d.secret with | some s => .pyStr s | none => .pyNone)]

/-- `model_dump()` of a `RetryPolicy`, as serialized into the
`retry_policy` jsonb column. -/
def RetryPolicy.dump (p : RetryPolicy) : PyVal :=
  .pyDict [("max_attempts", .pyInt p.max_attempts),
    ("backoff", match p.backoff with | some b => .pyStr b | none => .pyNone)]

/-- The `ge=1` constraint on the optional `timeout_ms` field: absent
is fine, a present value must be positive. -/
def timeoutOk : Option Int → Bool
  | none => true
  | some t => decide (1 ≤ t)

/-- Pydantic validation of `CreateRouteRequest`: non-empty
`event_type`, `action_type` and `destination.url`, `timeout_ms ≥ 1`
when present, `retry_policy.max_attempts ≥ 1`. -/
def validCreateRoute (req : CreateRouteRequest) : Bool :=
  req.event_type != "" && req.action_type != "" && req.destination.url != "" &&
    timeoutOk req.destination.timeout_ms && decide (1 ≤ req.retry_policy.max_attempts)

/-- `POST /routes`: request validation (performed by the framework
before the handler body), the MVP guardrail rejecting any
`action_type` other than `webhook.deliver`, then a single INSERT into
`routes` returning the new id.  `bool(req.enabled)` maps an explicit
`null` to `false` and the default to `true`. -/
def create_route (db : DB) (req : CreateRouteRequest) : DB × Except Err Nat :=
  if validCreateRoute req then
    if req.action_type == "webhook.deliver" then
      let nr : Route :=
        { id := db.nextId, event_type := req.event_type, action_type := req.action_type,
          destination := req.destination.dump, retry_policy := req.retry_policy.dump,
          enabled := req.enabled.getD false, created_at := db.nextId }
      ({ db with routes := db.routes ++ [nr], nextId := db.nextId + 1 }, .ok db.nextId)
    else (db, .error .unsupportedAction)
  else (db, .error .validationError)

/-- Python truthiness of the optional idempotency key:
`if req.idempotency_key:` is false for both `None` and `""`. -/
def keyTruthy : Option String → Bool
  | none => false
  | some k => k != ""

/-- The key-less INSERT into `events`: always a fresh row, the
`idempotency_key` column left NULL. -/
def insertEventPlain (db : DB) (req : CreateEventRequest) : DB × Nat :=
  ({ db with
      events := db.events ++ [⟨db.nextId, req.type, .pyDict req.payload, none⟩],
      nextId := db.nextId + 1 },
    db.nextId)

/-- Modelled from the spec: the partial unique index on
`events (type, idempotency_key) WHERE idempotency_key IS NOT NULL`
(the SQL schema is not among the repository sources, but the spec
requires the pair to be "enforced unique whenever the key is
non-null"), so `ON CONFLICT ... DO UPDATE SET payload = EXCLUDED.payload
RETURNING id` rewrites the payload of the at-most-one (hence first)
conflicting row and returns its id; `none` when no row conflicts. -/
def upsertFirst (t k : String) (p : PyVal) : List Event → Option (List Event × Nat)
  | [] => none
  | e :: es =>
    if e.type == t && e.idempotency_key == some k then
      some ({ e with payload := p } :: es, e.id)
    else
      (upsertFirst t k p es).map (fun r => (e :: r.1, r.2))

/-- Step 1 of the `create_event` transaction: insert the event,
idempotently when a truthy idempotency key is supplied. -/
def insertEvent (db : DB) (req : CreateEventRequest) : DB × Nat :=
  match req.idempotency_key with
  | some k =>
    if k == "" then insertEventPlain db req
    else
      match upsertFirst req.type k (.pyDict req.payload) db.events with
      | some (evs, i) => ({ db with events := evs }, i)
      | none =>
        ({ db with
            events := db.events ++ [⟨db.nextId, req.type, .pyDict req.payload, some k⟩],
            nextId := db.nextId + 1 },
          db.nextId)
  | none => insertEventPlain db req

/-- Python `isinstance(v, int)` together with the value it denotes:
`int` values are themselves, `bool` values count as `1`/`0` (a Python
`bool` is an `int`), anything else is not an int. -/
def pyIntVal : PyVal → Option Int
  | .pyInt n => some n
  | .pyBool b => some (if b then 1 else 0)
  | _ => none

/-- The retry-budget derivation of the fan-out loop: a stored policy
that is a string is first decoded (`json.loads`, a decode error
yielding the empty dict); then, if the result is a dict whose
`max_attempts` entry is a positive int, that value is used, otherwise
the default 5. -/
def deriveMaxAttempts (loads : String → Option PyVal) (rp : PyVal) : Int :=
  let rp2 :=
    match rp with
    | .pyStr s =>
      match loads s with
      | some v => v
      | none => .pyDict []
    | v => v
  match rp2 with
  | .pyDict kvs =>
    match List.lookup "max_attempts" kvs with
    | some v =>
      match pyIntVal v with
      | some n => if 0 < n then n else 5
      | none => 5
    | none => 5
  | _ => 5

/-- Step 2 of the transaction:
`SELECT ... FROM routes WHERE event_type = $1 AND enabled = TRUE`. -/
def matchingRoutes (db : DB) (t : String) : List Route :=
  db.routes.filter (fun r => r.event_type == t && r.enabled)

/-- The job row inserted for one matching route: `status = 'queued'`,
`attempt = 0`, `action_type` copied from the route, `payload` the
submitted event payload, `max_attempts` from the route's policy. -/
def mkJob (loads : String → Option PyVal) (eid : Nat) (p : PyVal) (jid : Nat) (r : Route) : Job :=
  { id := jid, event_id := eid, route_id := r.id, action_type := r.action_type,
    payload := p, status := "queued", attempt := 0,
    max_attempts := deriveMaxAttempts loads r.retry_policy }

/-- Step 3 of the transaction: one `INSERT INTO jobs` per matching
route, collecting the returned ids.  Each insert is a separately
faultable statement (`fault n` = the n-th statement of the
transaction raises a storage error). -/
def jobsLoop (fault : Nat → Bool) (loads : String → Option PyVal) (eid : Nat) (p : PyVal) :
    Nat → List Route → DB → Except Err (DB × List Nat)
  | _, [], db => .ok (db, [])
  | step, r :: rs, db =>
    if fault step then .error .persistenceError
    else
      let j := mkJob loads eid p db.nextId r
      match jobsLoop fault loads eid p (step + 1) rs
          { db with jobs := db.jobs ++ [j], nextId := db.nextId + 1 } with
      | .ok (db2, jids) => .ok (db2, j.id :: jids)
      | .error e => .error e

/-- The body of the `create_event` transaction: the event write is
statement 0, the route lookup statement 1, the job inserts statements
2, 3, .... -/
def create_event_tx (fault : Nat → Bool) (loads : String → Option PyVal)
    (db : DB) (req : CreateEventRequest) : Except Err (DB × CreateEventResponse) :=
  if fault 0 then .error .persistenceError
  else
    let r1 := insertEvent db req
    if fault 1 then .error .persistenceError
    else
      match jobsLoop fault loads r1.2 (.pyDict req.payload) 2 (matchingRoutes r1.1 req.type) r1.1 with
      | .ok (db2, jids) => .ok (db2, ⟨r1.2, jids⟩)
      | .error e => .error e

/-- Pydantic validation of `CreateEventRequest`: non-empty `type` and
a payload dict with at least one entry. -/
def validCreateEvent (req : CreateEventRequest) : Bool :=
  req.type != "" && decide (1 ≤ req.payload.length)

/-- `POST /events`: request validation, then the transactional unit
under `conn.transaction()`: if the body raises anywhere, the
transaction rolls back and the committed state is the original one. -/
def create_event (fault : Nat → Bool) (loads : String → Option PyVal)
    (db : DB) (req : CreateEventRequest) : DB × Except Err CreateEventResponse :=
  if validCreateEvent req then
    match create_event_tx fault loads db req with
    | .ok (db2, resp) => (db2, .ok resp)
    | .error e => (db, .error e)
  else (db, .error .validationError)

/-- Fault-free execution: no statement of the transaction raises. -/
def noFault : Nat → Bool := fun _ => false

/-- The `ORDER BY created_at DESC` order on routes. -/
def routeRecent (a b : Route) : Prop := b.created_at ≤ a.created_at

instance : DecidableRel routeRecent := fun a b => Nat.decLe b.created_at a.created_at

instance : IsTotal Route routeRecent := ⟨fun a b => Nat.le_total b.created_at a.created_at⟩

instance : IsTrans Route routeRecent := ⟨fun _ _ _ h1 h2 => Nat.le_trans h2 h1⟩

/-- The driver-robustness decode in the `list_routes` loop: a jsonb
column that came back as a string goes through `json.loads`; a decode
failure there is an uncaught exception (no try/except in this loop). -/
def decodeStored (loads : String → Option PyVal) : PyVal → Except Err PyVal
  | .pyStr s =>
    match loads s with
    | some v => .ok v
    | none => .error .persistenceError
  | v => .ok v

/-- One iteration of the `list_routes` response-building loop. -/
def routeToResponse (loads : String → Option PyVal) (r : Route) : Except Err RouteResponse := do
  let d ← decodeStored loads r.destination
  let p ← decodeStored loads r.retry_policy
  .ok ⟨r.id, r.event_type, r.action_type, d, p, r.enabled, r.created_at⟩

/-- The `list_routes` response-building loop over the fetched rows. -/
def buildResponses (loads : String → Option PyVal) : List Route → Except Err (List RouteResponse)
  | [] => .ok []
  | r :: rs => do
    let x ← routeToResponse loads r
    let xs ← buildResponses loads rs
    .ok (x :: xs)

/-- `GET /routes`: `SELECT ... FROM routes ORDER BY created_at DESC
LIMIT 100`, then the response-building loop. -/
def list_routes (loads : String → Option PyVal) (db : DB) : Except Err (List RouteResponse) :=
  buildResponses loads ((db.routes.insertionSort routeRecent).take 100)

/-- The event insert changes no `routes` row. -/
theorem insertEvent_routes (db : DB) (req : CreateEventRequest) :
    (insertEvent db req).1.routes = db.routes := by
  rcases h : req.idempotency_key with _ | k <;>
    simp only [insertEvent, insertEventPlain, h]
  rcases hk : k == "" with _ | _
  · rcases h2 : upsertFirst req.type k (.pyDict req.payload) db.events with _ | ⟨evs, i⟩ <;>
      simp [hk, h2]
  · simp [hk]

/-- The event insert changes no `jobs` row. -/
theorem insertEvent_jobs (db : DB) (req : CreateEventRequest) :
    (insertEvent db req).1.jobs = db.jobs := by
  rcases h : req.idempotency_key with _ | k <;>
    simp only [insertEvent, insertEventPlain, h]
  rcases hk : k == "" with _ | _
  · rcases h2 : upsertFirst req.type k (.pyDict req.payload) db.events with _ | ⟨evs, i⟩ <;>
      simp [hk, h2]
  · simp [hk]

/-- The route lookup of step 2 is unaffected by the event write of step 1. -/
theorem matchingRoutes_insertEvent (db : DB) (req : CreateEventRequest) (t : String) :
    matchingRoutes (insertEvent db req).1 t = matchingRoutes db t := by
  simp [matchingRoutes, insertEvent_routes]

/-- Closed form of the jobs created by the fan-out loop when no
statement faults: one `mkJob` per route, with consecutive fresh ids. -/
def fanoutJobs (loads : String → Option PyVal) (eid : Nat) (p : PyVal) : Nat → List Route → List Job
  | _, [] => []
  | jid, r :: rs => mkJob loads eid p jid r :: fanoutJobs loads eid p (jid + 1) rs

theorem fanoutJobs_length (loads : String → Option PyVal) (eid : Nat) (p : PyVal) :
    ∀ (rs : List Route) (jid : Nat), (fanoutJobs loads eid p jid rs).length = rs.length
  | [], _ => rfl
  | _ :: rs, jid => by simp [fanoutJobs, fanoutJobs_length loads eid p rs (jid + 1)]

theorem fanoutJobs_get (loads : String → Option PyVal) (eid : Nat) (p : PyVal) :
    ∀ (rs : List Route) (jid i : Nat) (hi : i < (fanoutJobs loads eid p jid rs).length)
      (hr : i < rs.length),
      (fanoutJobs loads eid p jid rs).get ⟨i, hi⟩ = mkJob loads eid p (jid + i) (rs.get ⟨i, hr⟩)
  | r :: rs, jid, 0, _, _ => by simp [fanoutJobs]
  | r :: rs, jid, i + 1, hi, hr => by
    have := fanoutJobs_get loads eid p rs (jid + 1) i (by
      simpa [fanoutJobs] using Nat.lt_of_succ_lt_succ hi) (Nat.lt_of_succ_lt_succ hr)
    simp only [fanoutJobs, List.get_cons_succ, this]
    congr 1
    omega

theorem fanoutJobs_mem (loads : String → Option PyVal) (eid : Nat) (p : PyVal) :
    ∀ (rs : List Route) (jid : Nat) (j : Job), j ∈ fanoutJobs loads eid p jid rs →
      ∃ r ∈ rs, j.route_id = r.id ∧ j.action_type = r.action_type
  | r :: rs, jid, j, hm => by
    rcases (List.mem_cons).mp hm with h | h
    · exact ⟨r, List.mem_cons_self r rs, by simp [h, mkJob]⟩
    · rcases fanoutJobs_mem loads eid p rs (jid + 1) j h with ⟨r2, hr2, hprop⟩
      exact ⟨r2, List.mem_cons_of_mem r hr2, hprop⟩

/-- Fault-free run of the fan-out loop: every insert succeeds and the
state grows by exactly the closed-form job list. -/
theorem jobsLoop_noFault (loads : String → Option PyVal) (eid : Nat) (p : PyVal) :
    ∀ (rs : List Route) (step : Nat) (db : DB),
      jobsLoop noFault loads eid p step rs db =
        .ok ({ db with
            jobs := db.jobs ++ fanoutJobs loads eid p db.nextId rs,
            nextId := db.nextId + rs.length },
          (fanoutJobs loads eid p db.nextId rs).map Job.id)
  | [], step, db => by simp [jobsLoop, fanoutJobs]
  | r :: rs, step, db => by
    simp only [jobsLoop, noFault, Bool.false_eq_true, if_false,
      jobsLoop_noFault loads eid p rs (step + 1), fanoutJobs, List.map_cons]
    simp [List.append_assoc]
    omega

/-- Fault-free closed form of a valid `create_event` call: the event
write of step 1, then exactly one job per route matching at call time,
with consecutive fresh ids, returned in fan-out order. -/
theorem create_event_run (loads : String → Option PyVal) (db : DB) (req : CreateEventRequest)
    (hv : validCreateEvent req = true) :
    create_event noFault loads db req =
      ({ (insertEvent db req).1 with
          jobs := db.jobs ++ fanoutJobs loads (insertEvent db req).2 (.pyDict req.payload)
            (insertEvent db req).1.nextId (matchingRoutes db req.type),
          nextId := (insertEvent db req).1.nextId + (matchingRoutes db req.type).length },
        .ok ⟨(insertEvent db req).2,
          (fanoutJobs loads (insertEvent db req).2 (.pyDict req.payload)
            (insertEvent db req).1.nextId (matchingRoutes db req.type)).map Job.id⟩) := by
  simp only [create_event, create_event_tx, hv, if_true, noFault, Bool.false_eq_true, if_false,
    jobsLoop_noFault, matchingRoutes_insertEvent, insertEvent_jobs]

/-- A falsy idempotency key (absent or empty) always takes the plain
INSERT path: a fresh row with a NULL key. -/
theorem insertEvent_falsy (db : DB) (req : CreateEventRequest)
    (hk : keyTruthy req.idempotency_key = false) :
    insertEvent db req =
      ({ db with
          events := db.events ++ [⟨db.nextId, req.type, .pyDict req.payload, none⟩],
          nextId := db.nextId + 1 },
        db.nextId) := by
  rcases h : req.idempotency_key with _ | k
  · simp [insertEvent, insertEventPlain, h]
  · rw [h] at hk
    have hk2 : k = "" := by simpa [keyTruthy] using hk
    subst hk2
    simp [insertEvent, insertEventPlain, h]

/-- The boolean conflict test of the upsert, as a proposition. -/
theorem upsertCond_iff (t k : String) (e : Event) :
    (e.type == t && e.idempotency_key == some k) = true ↔
      (e.type = t ∧ e.idempotency_key = some k) := by
  simp [Bool.and_eq_true]

/-- The upsert inserts (rather than updates) exactly when no stored
row has this `(type, key)` pair. -/
theorem upsertFirst_eq_none (t k : String) (p : PyVal) :
    ∀ evs : List Event, upsertFirst t k p evs = none ↔
      ∀ e ∈ evs, ¬(e.type = t ∧ e.idempotency_key = some k)
  | [] => by simp [upsertFirst]
  | e :: es => by
    simp only [upsertFirst]
    by_cases hb : (e.type == t && e.idempotency_key == some k) = true
    · rw [if_pos hb]
      rw [upsertCond_iff] at hb
      simp [hb]
    · rw [if_neg hb]
      rw [upsertCond_iff] at hb
      rw [Option.map_eq_none', upsertFirst_eq_none t k p es]
      constructor
      · intro hall x hx
        rcases List.mem_cons.mp hx with hxe | hxm
        · exact hxe ▸ hb
        · exact hall x hxm
      · intro hall x hx
        exact hall x (List.mem_cons_of_mem e hx)

/-- Computation rule of the upsert when the first conflicting row is
`old`: its payload is overwritten in place and its id returned. -/
theorem upsertFirst_hit (t k : String) (p : PyVal) (old : Event)
    (hty : old.type = t) (hkey : old.idempotency_key = some k) :
    ∀ (pre post : List Event),
      (∀ e ∈ pre, ¬(e.type = t ∧ e.idempotency_key = some k)) →
      upsertFirst t k p (pre ++ old :: post)
        = some (pre ++ { old with payload := p } :: post, old.id)
  | [], post, _ => by
    have hb : (old.type == t && old.idempotency_key == some k) = true :=
      (upsertCond_iff t k old).mpr ⟨hty, hkey⟩
    simp [upsertFirst, hb]
  | e :: pre, post, hpre => by
    have hne := hpre e (by simp)
    have hb : ¬(e.type == t && e.idempotency_key == some k) = true := by
      rw [upsertCond_iff]; exact hne
    have ih := upsertFirst_hit t k p old hty hkey pre post
      (fun x hx => hpre x (List.mem_cons_of_mem e hx))
    simp [upsertFirst, hb, ih]

/-- Inversion of a successful upsert: the event table splits as
`pre ++ old :: post` with `old` the first conflicting row, and only
its payload is rewritten. -/
theorem upsertFirst_some_inv (t k : String) (p : PyVal) :
    ∀ (evs evs2 : List Event) (i : Nat),
      upsertFirst t k p evs = some (evs2, i) →
      ∃ (pre : List Event) (old : Event) (post : List Event),
        evs = pre ++ old :: post ∧
        evs2 = pre ++ { old with payload := p } :: post ∧
        i = old.id ∧ old.type = t ∧ old.idempotency_key = some k ∧
        ∀ e ∈ pre, ¬(e.type = t ∧ e.idempotency_key = some k)
  | [], evs2, i => by simp [upsertFirst]
  | e :: es, evs2, i => by
    simp only [upsertFirst]
    by_cases hb : (e.type == t && e.idempotency_key == some k) = true
    · rw [if_pos hb]
      intro h
      rcases (upsertCond_iff t k e).mp hb with ⟨hty, hkey⟩
      have hp : ({ e with payload := p } :: es, e.id) = (evs2, i) := Option.some.inj h
      injection hp with hA hB
      subst hA
      subst hB
      exact ⟨[], e, es, rfl, rfl, rfl, hty, hkey, by simp⟩
    · rw [if_neg hb]
      intro h
      rcases Option.map_eq_some'.mp h with ⟨⟨es2, i2⟩, hrec, hmap⟩
      rcases upsertFirst_some_inv t k p es es2 i2 hrec with
        ⟨pre, old, post, hsplit, hset, hid, hty, hkey, hpre⟩
      rw [upsertCond_iff] at hb
      dsimp only at hmap
      injection hmap with hA hB
      subst hA
      subst hB
      refine ⟨e :: pre, old, post, by simp [hsplit], by simp [hset], hid, hty, hkey, ?_⟩
      intro x hx
      rcases List.mem_cons.mp hx with hxe | hxm
      · exact hxe ▸ hb
      · exact hpre x hxm


/-- The response of a fault-free valid call. -/
theorem create_event_ok (loads : String → Option PyVal) (db : DB) (req : CreateEventRequest)
    (hv : validCreateEvent req = true) :
    (create_event noFault loads db req).2 =
      .ok ⟨(insertEvent db req).2,
        (fanoutJobs loads (insertEvent db req).2 (.pyDict req.payload)
          (insertEvent db req).1.nextId (matchingRoutes db req.type)).map Job.id⟩ := by
  rw [create_event_run loads db req hv]

/-- The committed `events` table of a fault-free valid call is the one
produced by the event write of step 1. -/
theorem create_event_events (loads : String → Option PyVal) (db : DB) (req : CreateEventRequest)
    (hv : validCreateEvent req = true) :
    (create_event noFault loads db req).1.events = (insertEvent db req).1.events := by
  rw [create_event_run loads db req hv]

/-- The fresh-id counter after a fault-free valid call. -/
theorem create_event_nextId (loads : String → Option PyVal) (db : DB) (req : CreateEventRequest)
    (hv : validCreateEvent req = true) :
    (create_event noFault loads db req).1.nextId =
      (insertEvent db req).1.nextId + (matchingRoutes db req.type).length := by
  rw [create_event_run loads db req hv]

/-- The committed `jobs` table of a fault-free valid call: the old
rows plus the closed-form fan-out block. -/
theorem create_event_jobs (loads : String → Option PyVal) (db : DB) (req : CreateEventRequest)
    (hv : validCreateEvent req = true) :
    (create_event noFault loads db req).1.jobs =
      db.jobs ++ fanoutJobs loads (insertEvent db req).2 (.pyDict req.payload)
        (insertEvent db req).1.nextId (matchingRoutes db req.type) := by
  rw [create_event_run loads db req hv]

/-- `create_event` never touches the `routes` table. -/
theorem create_event_routes (loads : String → Option PyVal) (db : DB) (req : CreateEventRequest)
    (hv : validCreateEvent req = true) :
    (create_event noFault loads db req).1.routes = db.routes := by
  rw [create_event_run loads db req hv]
  simp [insertEvent_routes]

/-- A truthy idempotency key takes the upsert path. -/
theorem insertEvent_truthy (db : DB) (req : CreateEventRequest) (k : String)
    (hk : req.idempotency_key = some k) (hne : k ≠ "") :
    insertEvent db req =
      match upsertFirst req.type k (.pyDict req.payload) db.events with
      | some (evs, i) => ({ db with events := evs }, i)
      | none =>
        ({ db with
            events := db.events ++ [⟨db.nextId, req.type, .pyDict req.payload, some k⟩],
            nextId := db.nextId + 1 },
          db.nextId) := by
  have hb : (k == "") = false := by simp [hne]
  simp [insertEvent, hk, hb]

/-- Two fault-free valid calls whose idempotency key is falsy (absent
or empty) each insert a fresh event row with a NULL key and return two
distinct event ids. -/
theorem create_event_plain_twice (loads : String → Option PyVal) (db : DB)
    (req : CreateEventRequest) (hv : validCreateEvent req = true)
    (hk : keyTruthy req.idempotency_key = false) :
    ∃ id1 id2 jids1 jids2,
      (create_event noFault loads db req).2 = .ok ⟨id1, jids1⟩ ∧
      (create_event noFault loads (create_event noFault loads db req).1 req).2
        = .ok ⟨id2, jids2⟩ ∧
      id1 ≠ id2 ∧
      (create_event noFault loads db req).1.events
        = db.events ++ [⟨id1, req.type, .pyDict req.payload, none⟩] ∧
      (create_event noFault loads (create_event noFault loads db req).1 req).1.events
        = (create_event noFault loads db req).1.events
            ++ [⟨id2, req.type, .pyDict req.payload, none⟩] := by
  have hins1 := insertEvent_falsy db req hk
  have hins2 := insertEvent_falsy (create_event noFault loads db req).1 req hk
  have h1 := create_event_ok loads db req hv
  rw [hins1] at h1
  dsimp only at h1
  have h2 := create_event_ok loads (create_event noFault loads db req).1 req hv
  rw [hins2] at h2
  dsimp only at h2
  refine ⟨db.nextId, (create_event noFault loads db req).1.nextId, _, _,
    h1, h2, ?_, ?_, ?_⟩
  · rw [create_event_nextId loads db req hv, hins1]
    dsimp only
    omega
  · rw [create_event_events loads db req hv, hins1]
  · rw [create_event_events loads (create_event noFault loads db req).1 req hv, hins2]

/-- C1: a fault-free valid `create_event` call whose type is matched
by exactly K enabled routes returns the event id together with exactly
K job ids, one per matching route in order; each created job row has
`status = queued`, `attempt = 0`, `action_type` and `route_id` copied
from its route, `payload` equal to the submitted payload and
`max_attempts` derived from that route's policy; no other route
contributes a job. -/
theorem create_event_fanout_spec (loads : String → Option PyVal) (db : DB)
    (req : CreateEventRequest) (hv : validCreateEvent req = true) :
    ∃ eid jids newJobs,
      (create_event noFault loads db req).2 = .ok ⟨eid, jids⟩ ∧
      jids.length = (matchingRoutes db req.type).length ∧
      (create_event noFault loads db req).1.jobs = db.jobs ++ newJobs ∧
      newJobs.map Job.id = jids ∧
      newJobs.length = (matchingRoutes db req.type).length ∧
      (∀ (i : Nat) (hi : i < newJobs.length) (hr : i < (matchingRoutes db req.type).length),
        (newJobs.get ⟨i, hi⟩).status = "queued" ∧
        (newJobs.get ⟨i, hi⟩).attempt = 0 ∧
        (newJobs.get ⟨i, hi⟩).action_type
          = ((matchingRoutes db req.type).get ⟨i, hr⟩).action_type ∧
        (newJobs.get ⟨i, hi⟩).route_id = ((matchingRoutes db req.type).get ⟨i, hr⟩).id ∧
        (newJobs.get ⟨i, hi⟩).event_id = eid ∧
        (newJobs.get ⟨i, hi⟩).payload = .pyDict req.payload ∧
        (newJobs.get ⟨i, hi⟩).max_attempts
          = deriveMaxAttempts loads ((matchingRoutes db req.type).get ⟨i, hr⟩).retry_policy) ∧
      (∀ j ∈ newJobs, ∃ r ∈ matchingRoutes db req.type,
        j.route_id = r.id ∧ j.action_type = r.action_type) := by
  refine ⟨(insertEvent db req).2, _,
    fanoutJobs loads (insertEvent db req).2 (.pyDict req.payload)
      (insertEvent db req).1.nextId (matchingRoutes db req.type),
    create_event_ok loads db req hv, ?_, create_event_jobs loads db req hv, rfl, ?_, ?_, ?_⟩
  · simp [fanoutJobs_length]
  · simp [fanoutJobs_length]
  · intro i hi hr
    rw [fanoutJobs_get loads (insertEvent db req).2 (.pyDict req.payload)
      (matchingRoutes db req.type) (insertEvent db req).1.nextId i hi hr]
    simp [mkJob]
  · intro j hj
    exact fanoutJobs_mem loads (insertEvent db req).2 (.pyDict req.payload)
      (matchingRoutes db req.type) (insertEvent db req).1.nextId j hj

/-- C2: the whole `create_event` invocation is all-or-nothing: if it
reports any error (validation or a storage fault at any statement of
the transaction, including one in the middle of the fan-out), the
committed state is exactly the state before the call — no event
mutation and no job row is visible. -/
theorem create_event_rollback_spec (fault : Nat → Bool) (loads : String → Option PyVal)
    (db : DB) (req : CreateEventRequest) (e : Err)
    (h : (create_event fault loads db req).2 = .error e) :
    (create_event fault loads db req).1 = db := by
  simp only [create_event] at h ⊢
  by_cases hv : validCreateEvent req = true
  · simp only [hv, if_true] at h ⊢
    rcases htx : create_event_tx fault loads db req with e2 | ⟨db2, resp⟩ <;>
      simp only [htx] at h ⊢
    exact absurd h (by simp)
  · simp only [hv, Bool.false_eq_true, if_false] at h ⊢

/-- C3: the retry-budget derivation uses a positive integer
`max_attempts` field when the stored policy (structured, or a string
that decodes) provides one, and falls back to the fixed default 5 on a
missing field, a non-positive value, an undecodable string or a
non-dict value; it is total and its result is always at least 1. -/
theorem deriveMaxAttempts_spec (loads : String → Option PyVal) (rp : PyVal) :
    1 ≤ deriveMaxAttempts loads rp ∧
    (∀ kvs n, rp = .pyDict kvs → List.lookup "max_attempts" kvs = some (.pyInt n) →
      0 < n → deriveMaxAttempts loads rp = n) ∧
    (∀ kvs n, rp = .pyDict kvs → List.lookup "max_attempts" kvs = some (.pyInt n) →
      n ≤ 0 → deriveMaxAttempts loads rp = 5) ∧
    (∀ s kvs n, rp = .pyStr s → loads s = some (.pyDict kvs) →
      List.lookup "max_attempts" kvs = some (.pyInt n) → 0 < n →
      deriveMaxAttempts loads rp = n) ∧
    (∀ s, rp = .pyStr s → loads s = none → deriveMaxAttempts loads rp = 5) ∧
    (∀ kvs, rp = .pyDict kvs → List.lookup "max_attempts" kvs = none →
      deriveMaxAttempts loads rp = 5) ∧
    ((∀ kvs, rp ≠ .pyDict kvs) → (∀ s, rp ≠ .pyStr s) → deriveMaxAttempts loads rp = 5) := by
  refine ⟨?_, ?_, ?_, ?_, ?_, ?_, ?_⟩
  · simp only [deriveMaxAttempts]
    repeat' split
    all_goals omega
  · intro kvs n hrp hlook hpos
    subst hrp
    simp [deriveMaxAttempts, hlook, pyIntVal, hpos]
  · intro kvs n hrp hlook hnp
    subst hrp
    simp [deriveMaxAttempts, hlook, pyIntVal, show ¬(0 < n) by omega]
  · intro s kvs n hrp hloads hlook hpos
    subst hrp
    simp [deriveMaxAttempts, hloads, hlook, pyIntVal, hpos]
  · intro s hrp hloads
    subst hrp
    simp [deriveMaxAttempts, hloads]
  · intro kvs hrp hlook
    subst hrp
    simp [deriveMaxAttempts, hlook]
  · intro hnd hns
    rcases rp with _ | b | n | s | xs | kvs
    · simp [deriveMaxAttempts]
    · simp [deriveMaxAttempts]
    · simp [deriveMaxAttempts]
    · exact absurd rfl (hns s)
    · simp [deriveMaxAttempts]
    · exact absurd rfl (hnd kvs)

/-- C4: with a (truthy) idempotency key, a second fault-free valid
call with the same `(type, key)` creates no second event row: the
table keeps its length, the one existing `(type, key)` row has its
payload overwritten with the second call's submitted payload, and both
calls return that row's id. -/
theorem create_event_idempotent_upsert_spec (loads : String → Option PyVal) (db : DB)
    (req1 req2 : CreateEventRequest) (k : String)
    (h1 : validCreateEvent req1 = true) (h2 : validCreateEvent req2 = true)
    (ht : req2.type = req1.type)
    (hk1 : req1.idempotency_key = some k) (hk2 : req2.idempotency_key = some k)
    (hne : k ≠ "") :
    ∃ id1 jids1 jids2 pre old post,
      (create_event noFault loads db req1).2 = .ok ⟨id1, jids1⟩ ∧
      (create_event noFault loads (create_event noFault loads db req1).1 req2).2
        = .ok ⟨id1, jids2⟩ ∧
      (create_event noFault loads db req1).1.events = pre ++ old :: post ∧
      old.id = id1 ∧ old.type = req1.type ∧ old.idempotency_key = some k ∧
      (create_event noFault loads (create_event noFault loads db req1).1 req2).1.events
        = pre ++ { old with payload := .pyDict req2.payload } :: post ∧
      (create_event noFault loads (create_event noFault loads db req1).1 req2).1.events.length
        = (create_event noFault loads db req1).1.events.length := by
  have hins1 := insertEvent_truthy db req1 k hk1 hne
  have hev1 := create_event_events loads db req1 h1
  have hok1 := create_event_ok loads db req1 h1
  have hins2 := insertEvent_truthy (create_event noFault loads db req1).1 req2 k hk2 hne
  have hev2 := create_event_events loads (create_event noFault loads db req1).1 req2 h2
  have hok2 := create_event_ok loads (create_event noFault loads db req1).1 req2 h2
  rcases hU : upsertFirst req1.type k (.pyDict req1.payload) db.events with _ | ⟨evs1, i1⟩
  · -- call 1 found no conflicting row and appended a fresh one
    rw [hU] at hins1
    have hnom := (upsertFirst_eq_none req1.type k (.pyDict req1.payload) db.events).mp hU
    rw [hins1] at hev1 hok1
    dsimp only at hev1 hok1
    have hhit := upsertFirst_hit req2.type k (.pyDict req2.payload)
      (⟨db.nextId, req1.type, .pyDict req1.payload, some k⟩ : Event)
      (by simpa using ht.symm) rfl db.events
      [] (by intro x hx; rw [ht]; exact hnom x hx)
    rw [hev1, hhit] at hins2
    dsimp only at hins2
    rw [hins2] at hev2 hok2
    dsimp only at hev2 hok2
    exact ⟨db.nextId, _, _, db.events,
      ⟨db.nextId, req1.type, .pyDict req1.payload, some k⟩, [],
      hok1, hok2, hev1, rfl, rfl, rfl, hev2, by simp [hev1, hev2]⟩
  · -- call 1 overwrote the existing conflicting row in place
    rw [hU] at hins1
    rcases upsertFirst_some_inv req1.type k (.pyDict req1.payload) db.events evs1 i1 hU with
      ⟨pre, old, post, hsplit, hset, hid, hty, hkey, hpre⟩
    rw [hins1] at hev1 hok1
    dsimp only at hev1 hok1
    have hhit := upsertFirst_hit req2.type k (.pyDict req2.payload)
      ({ old with payload := .pyDict req1.payload } : Event)
      (by simpa using ht ▸ hty) (by simpa using hkey) pre post
      (by intro x hx; rw [ht]; exact hpre x hx)
    rw [hev1, hset, hhit] at hins2
    dsimp only at hins2
    rw [hins2] at hev2 hok2
    dsimp only at hev2 hok2
    rw [← hid] at hok2
    refine ⟨i1, _, _, pre, { old with payload := .pyDict req1.payload }, post,
      hok1, hok2, ?_, ?_, ?_, ?_, ?_, ?_⟩
    · rw [hev1, hset]
    · simp [hid]
    · simpa using hty
    · simpa using hkey
    · simpa using hev2
    · rw [hev2, hev1, hset]
      simp

/-- C5: a deduplicated resubmission (same `(type, key)` as a stored
event row) does not skip route matching: the call still returns one
fresh job id per currently-matching enabled route and appends exactly
that many new job rows, while the events table keeps its length. -/
theorem create_event_dup_key_refanout_spec (loads : String → Option PyVal) (db : DB)
    (req : CreateEventRequest) (k : String) (ev : Event)
    (hv : validCreateEvent req = true) (hk : req.idempotency_key = some k) (hne : k ≠ "")
    (he : ev ∈ db.events) (het : ev.type = req.type) (hek : ev.idempotency_key = some k) :
    ∃ eid jids newJobs,
      (create_event noFault loads db req).2 = .ok ⟨eid, jids⟩ ∧
      jids.length = (matchingRoutes db req.type).length ∧
      (create_event noFault loads db req).1.events.length = db.events.length ∧
      (create_event noFault loads db req).1.jobs = db.jobs ++ newJobs ∧
      newJobs.length = (matchingRoutes db req.type).length := by
  have hnm : upsertFirst req.type k (.pyDict req.payload) db.events ≠ none := by
    rw [Ne, upsertFirst_eq_none]
    push_neg
    exact ⟨ev, he, het, hek⟩
  rcases hU : upsertFirst req.type k (.pyDict req.payload) db.events with _ | ⟨evs1, i1⟩
  · exact absurd hU hnm
  · have hins := insertEvent_truthy db req k hk hne
    rw [hU] at hins
    dsimp only at hins
    rcases upsertFirst_some_inv req.type k (.pyDict req.payload) db.events evs1 i1 hU with
      ⟨pre, old, post, hsplit, hset, _, _, _, _⟩
    have hok := create_event_ok loads db req hv
    have hevs := create_event_events loads db req hv
    have hjobs := create_event_jobs loads db req hv
    rw [hins] at hok hevs hjobs
    dsimp only at hok hevs hjobs
    refine ⟨i1, _, _, hok, ?_, ?_, hjobs, ?_⟩
    · simp [fanoutJobs_length]
    · rw [hevs, hset, hsplit]
      simp
    · simp [fanoutJobs_length]

/-- C6: without an idempotency key every fault-free valid call inserts
a fresh event row: two successive calls append two separate rows (with
a NULL stored key) and return two distinct event ids. -/
theorem create_event_no_key_distinct_spec (loads : String → Option PyVal) (db : DB)
    (req : CreateEventRequest) (hv : validCreateEvent req = true)
    (hk : req.idempotency_key = none) :
    ∃ id1 id2 jids1 jids2,
      (create_event noFault loads db req).2 = .ok ⟨id1, jids1⟩ ∧
      (create_event noFault loads (create_event noFault loads db req).1 req).2
        = .ok ⟨id2, jids2⟩ ∧
      id1 ≠ id2 ∧
      (create_event noFault loads db req).1.events
        = db.events ++ [⟨id1, req.type, .pyDict req.payload, none⟩] ∧
      (create_event noFault loads (create_event noFault loads db req).1 req).1.events
        = (create_event noFault loads db req).1.events
            ++ [⟨id2, req.type, .pyDict req.payload, none⟩] :=
  create_event_plain_twice loads db req hv (by rw [hk]; rfl)

/-- C9: an idempotency key equal to the empty string is falsy in
`if req.idempotency_key:` and is therefore treated exactly as an
absent key: the call behaves identically to the key-less one (under
any fault pattern), and two fault-free valid calls insert two fresh
rows and return two distinct event ids — no deduplication happens. -/
theorem create_event_empty_key_spec (fault : Nat → Bool) (loads : String → Option PyVal)
    (db : DB) (req : CreateEventRequest) (hk : req.idempotency_key = some "") :
    create_event fault loads db req
        = create_event fault loads db { req with idempotency_key := none } ∧
    (validCreateEvent req = true →
      ∃ id1 id2 jids1 jids2,
        (create_event noFault loads db req).2 = .ok ⟨id1, jids1⟩ ∧
        (create_event noFault loads (create_event noFault loads db req).1 req).2
          = .ok ⟨id2, jids2⟩ ∧
        id1 ≠ id2 ∧
        (create_event noFault loads db req).1.events
          = db.events ++ [⟨id1, req.type, .pyDict req.payload, none⟩] ∧
        (create_event noFault loads (create_event noFault loads db req).1 req).1.events
          = (create_event noFault loads db req).1.events
              ++ [⟨id2, req.type, .pyDict req.payload, none⟩]) := by
  constructor
  · rcases req with ⟨t, p, ko⟩
    simp only at hk
    subst hk
    rfl
  · intro hv
    exact create_event_plain_twice loads db req hv (by rw [hk]; rfl)

/-- The `ge=1` constraint as a proposition. -/
theorem timeoutOk_iff (o : Option Int) : timeoutOk o = true ↔ ∀ t, o = some t → 1 ≤ t := by
  rcases o with _ | t <;> simp [timeoutOk]

/-- C7: `create_route` fails with a validation error exactly when
`event_type`, `action_type` or `destination.url` is empty, a present
`timeout_ms` is not positive, or `max_attempts` is below 1; a valid
request whose action type is not `webhook.deliver` fails with the
distinct unsupported-action error; every failure leaves the state
untouched, and a valid `webhook.deliver` request appends exactly one
route row, returns its id and has no other effect. -/
theorem create_route_spec (db : DB) (req : CreateRouteRequest) :
    (validCreateRoute req = false ↔
      (req.event_type = "" ∨ req.action_type = "" ∨ req.destination.url = "" ∨
        (∃ t, req.destination.timeout_ms = some t ∧ t < 1) ∨
        req.retry_policy.max_attempts < 1)) ∧
    (validCreateRoute req = false → create_route db req = (db, .error .validationError)) ∧
    (validCreateRoute req = true → req.action_type ≠ "webhook.deliver" →
      create_route db req = (db, .error .unsupportedAction)) ∧
    (validCreateRoute req = true → req.action_type = "webhook.deliver" →
      ∃ rid nr,
        (create_route db req).2 = .ok rid ∧
        (create_route db req).1.events = db.events ∧
        (create_route db req).1.jobs = db.jobs ∧
        (create_route db req).1.routes = db.routes ++ [nr] ∧
        nr.id = rid ∧ nr.event_type = req.event_type ∧ nr.action_type = req.action_type ∧
        nr.destination = req.destination.dump ∧ nr.retry_policy = req.retry_policy.dump ∧
        nr.enabled = req.enabled.getD false) := by
  have hval : validCreateRoute req = true ↔
      (req.event_type ≠ "" ∧ req.action_type ≠ "" ∧ req.destination.url ≠ "" ∧
        (∀ t, req.destination.timeout_ms = some t → 1 ≤ t) ∧
        1 ≤ req.retry_policy.max_attempts) := by
    simp [validCreateRoute, Bool.and_eq_true, bne_iff_ne, timeoutOk_iff, and_assoc]
  refine ⟨?_, ?_, ?_, ?_⟩
  · rw [Bool.eq_false_iff, Ne, hval]
    constructor
    · intro hn
      by_contra hcon
      push_neg at hcon
      rcases hcon with ⟨c1, c2, c3, c4, c5⟩
      exact hn ⟨c1, c2, c3, fun t hts => c4 t hts, c5⟩
    · intro hdis hconj
      rcases hconj with ⟨c1, c2, c3, c4, c5⟩
      rcases hdis with h | h | h | ⟨t, hts, hlt⟩ | h
      · exact c1 h
      · exact c2 h
      · exact c3 h
      · exact absurd (c4 t hts) (by omega)
      · omega
  · intro hf
    simp [create_route, hf]
  · intro hv hact
    simp [create_route, hv, hact]
  · intro hv hact
    refine ⟨db.nextId,
      { id := db.nextId, event_type := req.event_type, action_type := req.action_type,
        destination := req.destination.dump, retry_policy := req.retry_policy.dump,
        enabled := req.enabled.getD false, created_at := db.nextId },
      ?_, ?_, ?_, ?_, rfl, rfl, rfl, rfl, rfl, rfl⟩ <;>
    simp [create_route, hv, hact]

/-- Field-by-field correspondence between a stored route row and its
entry in the `GET /routes` response. -/
def RespMatch (r : Route) (x : RouteResponse) : Prop :=
  x.id = r.id ∧ x.event_type = r.event_type ∧ x.action_type = r.action_type ∧
  x.enabled = r.enabled ∧ x.created_at = r.created_at

/-- Sequencing in the `Except` monad: an error short-circuits. -/
theorem except_error_bind {α β : Type} (e : Err) (f : α → Except Err β) :
    (Except.error e >>= f : Except Err β) = Except.error e := rfl

/-- Sequencing in the `Except` monad: a success feeds the next step. -/
theorem except_ok_bind {α β : Type} (a : α) (f : α → Except Err β) :
    (Except.ok a >>= f : Except Err β) = f a := rfl

/-- A failing `decodeStored` is always a persistence-level fault. -/
theorem decodeStored_error (loads : String → Option PyVal) (v : PyVal) (e : Err)
    (h : decodeStored loads v = .error e) : e = .persistenceError := by
  rcases v with _ | b | n | s | xs | kvs
  · simp [decodeStored] at h
  · simp [decodeStored] at h
  · simp [decodeStored] at h
  · simp only [decodeStored] at h
    rcases hl : loads s with _ | w
    · rw [hl] at h
      simp at h
      exact h.symm
    · rw [hl] at h
      simp at h
  · simp [decodeStored] at h
  · simp [decodeStored] at h

/-- A failing `routeToResponse` is always a persistence-level fault. -/
theorem routeToResponse_error (loads : String → Option PyVal) (r : Route) (e : Err)
    (h : routeToResponse loads r = .error e) : e = .persistenceError := by
  simp only [routeToResponse] at h
  rcases hd : decodeStored loads r.destination with e1 | d
  · rw [hd, except_error_bind] at h
    cases h
    exact decodeStored_error loads r.destination e hd
  · rw [hd, except_ok_bind] at h
    rcases hq : decodeStored loads r.retry_policy with e2 | q
    · rw [hq, except_error_bind] at h
      cases h
      exact decodeStored_error loads r.retry_policy e hq
    · rw [hq, except_ok_bind] at h
      cases h

/-- The response-building loop only fails with persistence faults. -/
theorem buildResponses_error (loads : String → Option PyVal) :
    ∀ (l : List Route) (e : Err), buildResponses loads l = .error e → e = .persistenceError
  | [], e => by simp [buildResponses]
  | r :: rs, e => by
    simp only [buildResponses]
    intro h
    rcases hx : routeToResponse loads r with e1 | x
    · rw [hx, except_error_bind] at h
      cases h
      exact routeToResponse_error loads r e hx
    · rw [hx, except_ok_bind] at h
      rcases hrest : buildResponses loads rs with e2 | out
      · rw [hrest, except_error_bind] at h
        cases h
        exact buildResponses_error loads rs e hrest
      · rw [hrest, except_ok_bind] at h
        cases h

/-- When every stored jsonb field decodes, the loop succeeds and
returns one response per row, fields copied verbatim. -/
theorem buildResponses_ok (loads : String → Option PyVal) :
    ∀ l : List Route,
      (∀ r ∈ l, (∃ d, decodeStored loads r.destination = .ok d) ∧
        (∃ q, decodeStored loads r.retry_policy = .ok q)) →
      ∃ out, buildResponses loads l = .ok out ∧ List.Forall₂ RespMatch l out
  | [], _ => ⟨[], by simp [buildResponses], List.Forall₂.nil⟩
  | r :: rs, h => by
    rcases h r (by simp) with ⟨⟨d, hd⟩, ⟨q, hq⟩⟩
    rcases buildResponses_ok loads rs (fun x hx => h x (by simp [hx])) with ⟨out, hout, hfa⟩
    refine ⟨⟨r.id, r.event_type, r.action_type, d, q, r.enabled, r.created_at⟩ :: out, ?_, ?_⟩
    · simp [buildResponses, routeToResponse, hd, hq, hout, except_ok_bind]
    · exact List.Forall₂.cons ⟨rfl, rfl, rfl, rfl, rfl⟩ hfa

/-- A left element of a `Forall₂` pair has a related right element. -/
theorem forall2_mem_left {α β : Type} {R : α → β → Prop} :
    ∀ {l : List α} {l2 : List β}, List.Forall₂ R l l2 → ∀ a ∈ l, ∃ b ∈ l2, R a b := by
  intro l l2 h
  induction h with
  | nil => simp
  | cons hR hrest ih =>
    intro a ha
    rcases List.mem_cons.mp ha with rfl | ham
    · exact ⟨_, by simp, hR⟩
    · rcases ih a ham with ⟨b, hb, hRb⟩
      exact ⟨b, by simp [hb], hRb⟩

/-- A right element of a `Forall₂` pair has a related left element. -/
theorem forall2_mem_right {α β : Type} {R : α → β → Prop} :
    ∀ {l : List α} {l2 : List β}, List.Forall₂ R l l2 → ∀ b ∈ l2, ∃ a ∈ l, R a b := by
  intro l l2 h
  induction h with
  | nil => simp
  | cons hR hrest ih =>
    intro b hb
    rcases List.mem_cons.mp hb with rfl | hbm
    · exact ⟨_, by simp, hR⟩
    · rcases ih b hbm with ⟨a, ha, hRa⟩
      exact ⟨a, by simp [ha], hRa⟩

/-- The most-recent-first order on rows carries over to responses. -/
theorem forall2_pairwise_created :
    ∀ {l : List Route} {l2 : List RouteResponse}, List.Forall₂ RespMatch l l2 →
      List.Pairwise routeRecent l →
      List.Pairwise (fun a b : RouteResponse => b.created_at ≤ a.created_at) l2 := by
  intro l l2 h
  induction h with
  | nil => intro _; exact List.Pairwise.nil
  | cons hR hrest ih =>
    intro hp
    rcases List.pairwise_cons.mp hp with ⟨hhead, htail⟩
    refine List.pairwise_cons.mpr ⟨?_, ih htail⟩
    intro y hy
    rcases forall2_mem_right hrest y hy with ⟨x, hx, hRxy⟩
    have h1 : y.created_at = x.created_at := hRxy.2.2.2.2
    have h2 := hhead x hx
    have h3 := hR.2.2.2.2
    rw [h1, h3]
    exact h2

/-- C8: `list_routes` takes no input besides the stored state, never
fails with a domain (validation / unsupported-action) error, and — on
decodable stored state — returns one response per route of the
most-recent-100 cap, fields copied verbatim, ordered by creation time
with the most recent first; every route it omits is no more recent
than every route it keeps. -/
theorem list_routes_spec (loads : String → Option PyVal) (db : DB) :
    (∀ e, list_routes loads db = .error e → e = .persistenceError) ∧
    ((∀ r ∈ db.routes, (∃ d, decodeStored loads r.destination = .ok d) ∧
        (∃ q, decodeStored loads r.retry_policy = .ok q)) →
      ∃ out kept dropped,
        list_routes loads db = .ok out ∧
        (kept ++ dropped).Perm db.routes ∧
        kept.length = min 100 db.routes.length ∧
        List.Forall₂ RespMatch kept out ∧
        List.Pairwise (fun a b : RouteResponse => b.created_at ≤ a.created_at) out ∧
        (∀ r ∈ dropped, ∀ x ∈ kept, r.created_at ≤ x.created_at)) := by
  constructor
  · intro e he
    exact buildResponses_error loads _ e he
  · intro hdec
    have hperm : (db.routes.insertionSort routeRecent).Perm db.routes :=
      List.perm_insertionSort routeRecent db.routes
    have hsorted : List.Pairwise routeRecent (db.routes.insertionSort routeRecent) :=
      List.sorted_insertionSort routeRecent db.routes
    have hdecS : ∀ r ∈ (db.routes.insertionSort routeRecent).take 100,
        (∃ d, decodeStored loads r.destination = .ok d) ∧
        (∃ q, decodeStored loads r.retry_policy = .ok q) := by
      intro r hr
      exact hdec r (hperm.mem_iff.mp (List.Sublist.mem hr (List.take_sublist _ _)))
    rcases buildResponses_ok loads _ hdecS with ⟨out, hout, hfa⟩
    refine ⟨out, (db.routes.insertionSort routeRecent).take 100,
      (db.routes.insertionSort routeRecent).drop 100, hout, ?_, ?_, hfa, ?_, ?_⟩
    · rw [List.take_append_drop]
      exact hperm
    · rw [List.length_take, hperm.length_eq]
    · exact forall2_pairwise_created hfa
        (List.Pairwise.sublist (List.take_sublist _ _) hsorted)
    · intro r hr x hx
      have hsorted2 : List.Pairwise routeRecent
          ((db.routes.insertionSort routeRecent).take 100
            ++ (db.routes.insertionSort routeRecent).drop 100) := by
        rw [List.take_append_drop]
        exact hsorted
      exact (List.pairwise_append.mp hsorted2).2.2 x hx r hr

/-- C10: `list_routes` does not filter on `enabled`: when the table
fits in the 100-row cap, a disabled stored route still appears in the
response, with `enabled = false`. -/
theorem list_routes_disabled_spec (loads : String → Option PyVal) (db : DB) (r : Route)
    (hlen : db.routes.length ≤ 100)
    (hdec : ∀ x ∈ db.routes, (∃ d, decodeStored loads x.destination = .ok d) ∧
      (∃ q, decodeStored loads x.retry_policy = .ok q))
    (hr : r ∈ db.routes) (hd : r.enabled = false) :
    ∃ out, list_routes loads db = .ok out ∧
      ∃ x ∈ out, x.id = r.id ∧ x.enabled = false := by
  have hperm : (db.routes.insertionSort routeRecent).Perm db.routes :=
    List.perm_insertionSort routeRecent db.routes
  have htake : (db.routes.insertionSort routeRecent).take 100
      = db.routes.insertionSort routeRecent :=
    List.take_of_length_le (by rw [hperm.length_eq]; exact hlen)
  have hdecS : ∀ x ∈ (db.routes.insertionSort routeRecent).take 100,
      (∃ d, decodeStored loads x.destination = .ok d) ∧
      (∃ q, decodeStored loads x.retry_policy = .ok q) := by
    intro x hx
    exact hdec x (hperm.mem_iff.mp (List.Sublist.mem hx (List.take_sublist _ _)))
  rcases buildResponses_ok loads _ hdecS with ⟨out, hout, hfa⟩
  refine ⟨out, hout, ?_⟩
  have hrS : r ∈ (db.routes.insertionSort routeRecent).take 100 := by
    rw [htake]
    exact hperm.mem_iff.mpr hr
  rcases forall2_mem_left hfa r hrS with ⟨x, hx, hmatch⟩
  exact ⟨x, hx, hmatch.1, hmatch.2.2.2.1.trans hd⟩

/-- A decoder that fails on every string, a concrete stand-in for
`json.loads` in witnesses (the stored values there are structured). -/
def loadsNone : String → Option PyVal := fun _ => none

/-- An enabled route for `order.created` with a retry budget of 3. -/
def route1 : Route :=
  { id := 0, event_type := "order.created", action_type := "webhook.deliver",
    destination := .pyDict [("url", .pyStr "https://x")],
    retry_policy := .pyDict [("max_attempts", .pyInt 3)], enabled := true, created_at := 0 }

/-- A disabled route for the same event type. -/
def route2 : Route :=
  { id := 1, event_type := "order.created", action_type := "webhook.deliver",
    destination := .pyDict [("url", .pyStr "https://y")],
    retry_policy := .pyDict [], enabled := false, created_at := 1 }

/-- A small concrete state: one enabled and one disabled route. -/
def db0 : DB := { routes := [route1, route2], events := [], jobs := [], nextId := 2 }

/-- A stored event row carrying idempotency key `k1`. -/
def ev1 : Event :=
  { id := 0, type := "order.created", payload := .pyDict [("id", .pyInt 0)],
    idempotency_key := some "k1" }

/-- The concrete state with one keyed event row already stored. -/
def db1 : DB := { routes := [route1, route2], events := [ev1], jobs := [], nextId := 2 }

/-- A valid key-less event request. -/
def req0 : CreateEventRequest :=
  { type := "order.created", payload := [("id", .pyInt 1)], idempotency_key := none }

/-- The same request with idempotency key `k1`. -/
def reqK : CreateEventRequest :=
  { type := "order.created", payload := [("id", .pyInt 1)], idempotency_key := some "k1" }

/-- The same request with the empty-string idempotency key. -/
def reqE : CreateEventRequest :=
  { type := "order.created", payload := [("id", .pyInt 1)], idempotency_key := some "" }

/-- A valid route-creation request. -/
def rreq0 : CreateRouteRequest :=
  { event_type := "order.created", action_type := "webhook.deliver",
    destination := { url := "https://x", timeout_ms := some 3000, headers := none, secret := none },
    retry_policy := { max_attempts := 3, backoff := none }, enabled := some true }

/-- A storage fault at statement 0, the event INSERT. -/
def fault0 : Nat → Bool := fun n => n == 0

/-- Witness for C1 at the concrete state `db0`. -/
theorem create_event_fanout_spec_witness :
    validCreateEvent req0 = true ∧
    ∃ eid jids newJobs,
      (create_event noFault loadsNone db0 req0).2 = .ok ⟨eid, jids⟩ ∧
      jids.length = (matchingRoutes db0 req0.type).length ∧
      (create_event noFault loadsNone db0 req0).1.jobs = db0.jobs ++ newJobs ∧
      newJobs.map Job.id = jids ∧
      newJobs.length = (matchingRoutes db0 req0.type).length ∧
      (∀ (i : Nat) (hi : i < newJobs.length) (hr : i < (matchingRoutes db0 req0.type).length),
        (newJobs.get ⟨i, hi⟩).status = "queued" ∧
        (newJobs.get ⟨i, hi⟩).attempt = 0 ∧
        (newJobs.get ⟨i, hi⟩).action_type
          = ((matchingRoutes db0 req0.type).get ⟨i, hr⟩).action_type ∧
        (newJobs.get ⟨i, hi⟩).route_id = ((matchingRoutes db0 req0.type).get ⟨i, hr⟩).id ∧
        (newJobs.get ⟨i, hi⟩).event_id = eid ∧
        (newJobs.get ⟨i, hi⟩).payload = .pyDict req0.payload ∧
        (newJobs.get ⟨i, hi⟩).max_attempts
          = deriveMaxAttempts loadsNone
              ((matchingRoutes db0 req0.type).get ⟨i, hr⟩).retry_policy) ∧
      (∀ j ∈ newJobs, ∃ r ∈ matchingRoutes db0 req0.type,
        j.route_id = r.id ∧ j.action_type = r.action_type) :=
  ⟨by decide, create_event_fanout_spec loadsNone db0 req0 (by decide)⟩

/-- Witness for C2: a fault on the very first statement leaves the
state untouched. -/
theorem create_event_rollback_spec_witness :
    (create_event fault0 loadsNone db0 req0).2 = .error .persistenceError ∧
    (create_event fault0 loadsNone db0 req0).1 = db0 :=
  ⟨rfl, create_event_rollback_spec fault0 loadsNone db0 req0 .persistenceError rfl⟩

/-- Witness for C3 on concrete policies: an empty dict falls back to
5, an explicit positive budget is used, an undecodable string falls
back to 5. -/
theorem deriveMaxAttempts_spec_witness :
    1 ≤ deriveMaxAttempts loadsNone (.pyDict []) ∧
    deriveMaxAttempts loadsNone (.pyDict []) = 5 ∧
    deriveMaxAttempts loadsNone (.pyDict [("max_attempts", .pyInt 3)]) = 3 ∧
    deriveMaxAttempts loadsNone (.pyStr "junk") = 5 :=
  ⟨(deriveMaxAttempts_spec loadsNone (.pyDict [])).1,
    (deriveMaxAttempts_spec loadsNone (.pyDict [])).2.2.2.2.2.1 [] rfl rfl,
    (deriveMaxAttempts_spec loadsNone
      (.pyDict [("max_attempts", .pyInt 3)])).2.1 [("max_attempts", .pyInt 3)] 3
      rfl rfl (by decide),
    (deriveMaxAttempts_spec loadsNone (.pyStr "junk")).2.2.2.2.1 "junk" rfl rfl⟩

/-- Witness for C4: the same keyed request twice against `db0`. -/
theorem create_event_idempotent_upsert_spec_witness :
    validCreateEvent reqK = true ∧
    ∃ id1 jids1 jids2 pre old post,
      (create_event noFault loadsNone db0 reqK).2 = .ok ⟨id1, jids1⟩ ∧
      (create_event noFault loadsNone (create_event noFault loadsNone db0 reqK).1 reqK).2
        = .ok ⟨id1, jids2⟩ ∧
      (create_event noFault loadsNone db0 reqK).1.events = pre ++ old :: post ∧
      old.id = id1 ∧ old.type = reqK.type ∧ old.idempotency_key = some "k1" ∧
      (create_event noFault loadsNone (create_event noFault loadsNone db0 reqK).1 reqK).1.events
        = pre ++ { old with payload := .pyDict reqK.payload } :: post ∧
      (create_event noFault loadsNone
          (create_event noFault loadsNone db0 reqK).1 reqK).1.events.length
        = (create_event noFault loadsNone db0 reqK).1.events.length :=
  ⟨by decide, create_event_idempotent_upsert_spec loadsNone db0 reqK reqK "k1"
    (by decide) (by decide) rfl rfl rfl (by decide)⟩

/-- Witness for C5: a keyed resubmission against `db1`, which already
stores the `(order.created, k1)` row, still fans out one job. -/
theorem create_event_dup_key_refanout_spec_witness :
    validCreateEvent reqK = true ∧ ev1 ∈ db1.events ∧
    ∃ eid jids newJobs,
      (create_event noFault loadsNone db1 reqK).2 = .ok ⟨eid, jids⟩ ∧
      jids.length = (matchingRoutes db1 reqK.type).length ∧
      (create_event noFault loadsNone db1 reqK).1.events.length = db1.events.length ∧
      (create_event noFault loadsNone db1 reqK).1.jobs = db1.jobs ++ newJobs ∧
      newJobs.length = (matchingRoutes db1 reqK.type).length :=
  ⟨by decide, List.mem_cons_self ev1 [],
    create_event_dup_key_refanout_spec loadsNone db1 reqK "k1" ev1 (by decide) rfl
      (by decide) (List.mem_cons_self ev1 []) rfl rfl⟩

/-- Witness for C6: the key-less request twice against `db0`. -/
theorem create_event_no_key_distinct_spec_witness :
    validCreateEvent req0 = true ∧
    ∃ id1 id2 jids1 jids2,
      (create_event noFault loadsNone db0 req0).2 = .ok ⟨id1, jids1⟩ ∧
      (create_event noFault loadsNone (create_event noFault loadsNone db0 req0).1 req0).2
        = .ok ⟨id2, jids2⟩ ∧
      id1 ≠ id2 ∧
      (create_event noFault loadsNone db0 req0).1.events
        = db0.events ++ [⟨id1, req0.type, .pyDict req0.payload, none⟩] ∧
      (create_event noFault loadsNone (create_event noFault loadsNone db0 req0).1 req0).1.events
        = (create_event noFault loadsNone db0 req0).1.events
            ++ [⟨id2, req0.type, .pyDict req0.payload, none⟩] :=
  ⟨by decide, create_event_no_key_distinct_spec loadsNone db0 req0 (by decide) rfl⟩

/-- Witness for C7: a valid `webhook.deliver` request against `db0`. -/
theorem create_route_spec_witness :
    validCreateRoute rreq0 = true ∧
    ∃ rid nr,
      (create_route db0 rreq0).2 = .ok rid ∧
      (create_route db0 rreq0).1.events = db0.events ∧
      (create_route db0 rreq0).1.jobs = db0.jobs ∧
      (create_route db0 rreq0).1.routes = db0.routes ++ [nr] ∧
      nr.id = rid ∧ nr.event_type = rreq0.event_type ∧ nr.action_type = rreq0.action_type ∧
      nr.destination = rreq0.destination.dump ∧ nr.retry_policy = rreq0.retry_policy.dump ∧
      nr.enabled = rreq0.enabled.getD false :=
  ⟨by decide, (create_route_spec db0 rreq0).2.2.2 (by decide) rfl⟩

/-- Witness for C8 at the concrete state `db0` (all stored jsonb
fields are structured, so they decode trivially). -/
theorem list_routes_spec_witness :
    (∀ e, list_routes loadsNone db0 = .error e → e = .persistenceError) ∧
    ∃ out kept dropped,
      list_routes loadsNone db0 = .ok out ∧
      (kept ++ dropped).Perm db0.routes ∧
      kept.length = min 100 db0.routes.length ∧
      List.Forall₂ RespMatch kept out ∧
      List.Pairwise (fun a b : RouteResponse => b.created_at ≤ a.created_at) out ∧
      (∀ r ∈ dropped, ∀ x ∈ kept, r.created_at ≤ x.created_at) :=
  ⟨(list_routes_spec loadsNone db0).1,
    (list_routes_spec loadsNone db0).2 (by
      intro r hr
      rcases List.mem_cons.mp hr with h1 | hr2
      · exact h1 ▸ ⟨⟨_, rfl⟩, ⟨_, rfl⟩⟩
      · rcases List.mem_cons.mp hr2 with h2 | h3
        · exact h2 ▸ ⟨⟨_, rfl⟩, ⟨_, rfl⟩⟩
        · cases h3)⟩

/-- Witness for C9: the empty-string key behaves as absent on `db0`. -/
theorem create_event_empty_key_spec_witness :
    reqE.idempotency_key = some "" ∧
    create_event fault0 loadsNone db0 reqE
      = create_event fault0 loadsNone db0 { reqE with idempotency_key := none } ∧
    ∃ id1 id2 jids1 jids2,
      (create_event noFault loadsNone db0 reqE).2 = .ok ⟨id1, jids1⟩ ∧
      (create_event noFault loadsNone (create_event noFault loadsNone db0 reqE).1 reqE).2
        = .ok ⟨id2, jids2⟩ ∧
      id1 ≠ id2 ∧
      (create_event noFault loadsNone db0 reqE).1.events
        = db0.events ++ [⟨id1, reqE.type, .pyDict reqE.payload, none⟩] ∧
      (create_event noFault loadsNone (create_event noFault loadsNone db0 reqE).1 reqE).1.events
        = (create_event noFault loadsNone db0 reqE).1.events
            ++ [⟨id2, reqE.type, .pyDict reqE.payload, none⟩] :=
  ⟨rfl, (create_event_empty_key_spec fault0 loadsNone db0 reqE rfl).1,
    (create_event_empty_key_spec fault0 loadsNone db0 reqE rfl).2 (by decide)⟩

/-- Witness for C10: the disabled `route2` appears in the listing of
`db0`. -/
theorem list_routes_disabled_spec_witness :
    route2.enabled = false ∧
    ∃ out, list_routes loadsNone db0 = .ok out ∧
      ∃ x ∈ out, x.id = route2.id ∧ x.enabled = false :=
  ⟨rfl, list_routes_disabled_spec loadsNone db0 route2 (by decide)
    (by
      intro r hr
      rcases List.mem_cons.mp hr with h1 | hr2
      · exact h1 ▸ ⟨⟨_, rfl⟩, ⟨_, rfl⟩⟩
      · rcases List.mem_cons.mp hr2 with h2 | h3
        · exact h2 ▸ ⟨⟨_, rfl⟩, ⟨_, rfl⟩⟩
        · cases h3)
    (List.mem_cons_of_mem route1 (List.mem_cons_self route2 []))
    rfl⟩
